import Mathlib

/-!
Verification of the NewsByMood repository (src/streamlit_app.py): a shallow
embedding of the retrieval adapter `get_news_articles`, the `system_message`
prompt, the module-level credential loading, and (modelled from the spec) the
mood policy and the per-turn conversation append, together with theorems
settling the spec's claims about them.
-/

namespace NewsByMood

/-- JSON values as produced by Python's `json` module when parsing the search
provider's response body.  Numbers are modelled as integers (the provider's
fields relevant here are strings, arrays and objects); object fields keep
their insertion order, as Python dicts do. -/
inductive Json where
  | null
  | bool (b : Bool)
  | int (n : Int)
  | str (s : String)
  | arr (elems : List Json)
  | obj (fields : List (String × Json))

/-- The parsed body of a provider response.  Per the provider contract
(spec section 6) `response.json()` yields a JSON object; we model that object
directly as its ordered field list. -/
abbrev JsonObj := List (String × Json)

/-- Python truthiness of a JSON value, as used by the source's
`if "news_results" in result_json and result_json["news_results"]:` test:
None, False, 0, empty string, empty list and empty dict are falsy. -/
def Json.truthy : Json → Bool
  | .null => false
  | .bool b => b
  | .int n => n != 0
  | .str s => s != ""
  | .arr xs => !xs.isEmpty
  | .obj fs => !fs.isEmpty

/-- Dictionary field lookup, `article["k"]` / `article.get("k")`.  The
source's article entries are JSON objects (non-object entries would raise in
Python and are outside the provider schema of spec section 6). -/
def Json.get? (j : Json) (k : String) : Option Json :=
  match j with
  | .obj fs => fs.lookup k
  | _ => none

/-- Elements of a JSON array value, for the source's `[:3]` slicing.  The
guarded fields `news_results` / `top_stories` are arrays per the provider
schema (spec section 6); other shapes would raise in Python. -/
def Json.elems : Json → List Json
  | .arr xs => xs
  | _ => []

mutual
/-- Python `str()` of a JSON value, as applied by the source's f-string
interpolation `f"Title: {title}\n..."`. -/
def pyStr : Json → String
  | .str s => s
  | .null => pyRepr .null
  | .bool b => pyRepr (.bool b)
  | .int n => pyRepr (.int n)
  | .arr xs => pyRepr (.arr xs)
  | .obj fs => pyRepr (.obj fs)

/-- Python `repr()` of a JSON value (used by `str()` on containers); escaping
inside string literals is elided, as no claim exercises it. -/
def pyRepr : Json → String
  | .null => "None"
  | .bool true => "True"
  | .bool false => "False"
  | .int n => toString n
  | .str s => "\x27" ++ s ++ "\x27"
  | .arr xs => "[" ++ String.intercalate ", " (pyReprList xs) ++ "]"
  | .obj fs => "\x7b" ++ String.intercalate ", " (pyReprFields fs) ++ "\x7d"

/-- Helper of `pyRepr` for the elements of a list. -/
def pyReprList : List Json → List String
  | [] => []
  | x :: xs => pyRepr x :: pyReprList xs

/-- Helper of `pyRepr` for the fields of a dict. -/
def pyReprFields : List (String × Json) → List String
  | [] => []
  | (k, v) :: fs => ("\x27" ++ k ++ "\x27: " ++ pyRepr v) :: pyReprFields fs
end

/-- JSON string escaping as performed by `json.dumps` for the characters a
provider response realistically contains (quote, backslash, newline, carriage
return, tab); `\uXXXX` escapes for other control or non-ASCII characters are
elided, as no claim exercises them. -/
def jsonEscapeChar (c : Char) : String :=
  if c = '"' then "\\\""
  else if c = '\\' then "\\\\"
  else if c = '\n' then "\\n"
  else if c = '\r' then "\\r"
  else if c = '\t' then "\\t"
  else String.singleton c

/-- A JSON-quoted string literal, `json.dumps` style. -/
def jsonQuote (s : String) : String :=
  "\"" ++ String.join (s.toList.map jsonEscapeChar) ++ "\""

/-- A run of `n` spaces, for `json.dumps(..., indent=2)` indentation. -/
def jsonSpaces (n : Nat) : String := String.join (List.replicate n " ")

mutual
/-- Python `json.dumps(j, indent=2)` rendered at indentation depth `d`:
item separator `","` + newline, key separator `": "`, members indented two
spaces past the enclosing bracket. -/
def jsonDumpAt : Json → Nat → String
  | .null, _ => "null"
  | .bool true, _ => "true"
  | .bool false, _ => "false"
  | .int n, _ => toString n
  | .str s, _ => jsonQuote s
  | .arr [], _ => "[]"
  | .arr (x :: xs), d =>
      "[\n" ++ String.intercalate ",\n" (jsonDumpList (x :: xs) (d + 2)) ++
      "\n" ++ jsonSpaces d ++ "]"
  | .obj [], _ => "\x7b\x7d"
  | .obj (f :: fs), d =>
      "\x7b\n" ++ String.intercalate ",\n" (jsonDumpFields (f :: fs) (d + 2)) ++
      "\n" ++ jsonSpaces d ++ "\x7d"

/-- Helper of `jsonDumpAt` for array elements. -/
def jsonDumpList : List Json → Nat → List String
  | [], _ => []
  | x :: xs, d => (jsonSpaces d ++ jsonDumpAt x d) :: jsonDumpList xs d

/-- Helper of `jsonDumpAt` for object fields. -/
def jsonDumpFields : List (String × Json) → Nat → List String
  | [], _ => []
  | (k, v) :: fs, d =>
      (jsonSpaces d ++ jsonQuote k ++ ": " ++ jsonDumpAt v d) :: jsonDumpFields fs d
end

/-- The source's `json.dumps(result_json, indent=2)` on the parsed response
object. -/
def json_dumps_indent2 (body : JsonObj) : String := jsonDumpAt (Json.obj body) 0

/-- One HTTP response from the provider: `response.status_code` and the
parsed object `response.json()` (only read by the source when the status is
200). -/
structure HttpResponse where
  status_code : Int
  body : JsonObj

/-- Outcome of the single `requests.get` call: either a response, or a raised
transport exception (connection error, timeout, ...) identified by its text.
The source wraps the call in no try/except. -/
inductive TransportResult where
  | success (response : HttpResponse)
  | failure (exc : String)

/-- The network as seen by the adapter: a map from the request's query-string
parameters to the outcome of the one GET to
`https://api.scaleserp.com/search`. -/
abbrev Network := List (String × Option String) → TransportResult

/-- The `params` dict built by `get_news_articles` (source lines 16 to 24):
`api_key` is the module-level `SERP_API_KEY`, which is `None` when the
environment variable was absent, hence `Option String`; the commented-out
`tbm` entry is not built. -/
def requestParams (serp_api_key : Option String) (query : String) :
    List (String × Option String) :=
  [("api_key", serp_api_key),
   ("q", some query),
   ("gl", some "us"),
   ("hl", some "en"),
   ("google_domain", some "google.com")]

/-- The source's test `"k" in result_json and result_json["k"]`: the key is
present and its value is truthy. -/
def keyTruthy (result_json : JsonObj) (k : String) : Bool :=
  match result_json.lookup k with
  | some v => v.truthy
  | none => false

/-- One formatted block of the `news_results` branch (source lines 32 to 36):
`Title:` / `Summary:` / `Link:` lines from `article.get` with the
placeholders `No Title` / `No Summary` / `No Link` for absent fields. -/
def formatNewsResult (article : Json) : String :=
  "Title: " ++ (match article.get? "title" with
    | some v => pyStr v
    | none => "No Title") ++
  "\nSummary: " ++ (match article.get? "snippet" with
    | some v => pyStr v
    | none => "No Summary") ++
  "\nLink: " ++ (match article.get? "link" with
    | some v => pyStr v
    | none => "No Link")

/-- The default summary of the `top_stories` branch (source line 43):
`f"Source: {source}, Date: {date}"` with `Unknown` for an absent source or
date field. -/
def topStoryDefaultSummary (article : Json) : String :=
  "Source: " ++ (match article.get? "source" with
    | some v => pyStr v
    | none => "Unknown") ++
  ", Date: " ++ (match article.get? "date" with
    | some v => pyStr v
    | none => "Unknown")

/-- One formatted block of the `top_stories` branch (source lines 41 to 45):
as `formatNewsResult`, except that an absent snippet field defaults to the
synthesized `Source: ..., Date: ...` summary. -/
def formatTopStory (article : Json) : String :=
  "Title: " ++ (match article.get? "title" with
    | some v => pyStr v
    | none => "No Title") ++
  "\nSummary: " ++ (match article.get? "snippet" with
    | some v => pyStr v
    | none => topStoryDefaultSummary article) ++
  "\nLink: " ++ (match article.get? "link" with
    | some v => pyStr v
    | none => "No Link")

/-- The status-200 body extraction of `get_news_articles` (source lines 27 to
48), in the source's strict priority order: a truthy `news_results` field
first, else a truthy `top_stories` field, else the no-results diagnostic with
the indented dump of the raw parsed response. -/
def extractArticles (result_json : JsonObj) : String :=
  if keyTruthy result_json "news_results" then
    String.intercalate "\n\n"
      ((((result_json.lookup "news_results").getD .null).elems.take 3).map
        formatNewsResult)
  else if keyTruthy result_json "top_stories" then
    String.intercalate "\n\n"
      ((((result_json.lookup "top_stories").getD .null).elems.take 3).map
        formatTopStory)
  else
    "No news results found. Raw response:\n" ++ json_dumps_indent2 result_json

/-- The retrieval adapter `get_news_articles` (source lines 15 to 50).  It
builds the request params from the module-level key and the query, performs
the single GET, and: on status 200 extracts article text, on any other status
returns the error string as a normal result.  A raised transport exception
propagates out of the function (there is no try/except), modelled as
`Except.error`; every returned string is `Except.ok`. -/
def get_news_articles (serp_api_key : Option String) (net : Network)
    (query : String) : Except String String :=
  match net (requestParams serp_api_key query) with
  | .failure exc => .error exc
  | .success response =>
      if response.status_code = 200 then
        .ok (extractArticles response.body)
      else
        .ok ("Error: Unable to fetch data from SERP API, status code: " ++
          toString response.status_code)

/-- The `system_message` prompt string (source lines 63 to 70), the exact
concatenation of the source's adjacent string literals. -/
def system_message : String :=
  "You are a friendly, mood-sensitive news assistant. " ++
  "Always start by asking: \x27How has your day been so far?\x27 " ++
  "Then, based on the user\x27s answer, analyze their mood and map it to a news category as follows: " ++
  "Happy → Comedy news, Sad → Politics news, Stressed → Business news, Excited → Sports news, Neutral → Technology news. " ++
  "Once the mood and corresponding category are determined, construct a detailed query (for example, \x27latest politics news\x27) " ++
  "and use the SERPNewsAPI tool to fetch three recent news articles. Respond in a friendly, conversational tone and conclude after delivering the news."

/-- The five mood labels of the closed MoodCategoryMapping (spec section 3). -/
inductive Mood where
  | Happy
  | Sad
  | Stressed
  | Excited
  | Neutral
deriving DecidableEq

/-- The five news categories of the closed MoodCategoryMapping. -/
inductive Category where
  | Comedy
  | Politics
  | Business
  | Sports
  | Technology
deriving DecidableEq

/-- The display name of a mood label, as it appears in the prompt. -/
def Mood.label : Mood → String
  | .Happy => "Happy"
  | .Sad => "Sad"
  | .Stressed => "Stressed"
  | .Excited => "Excited"
  | .Neutral => "Neutral"

/-- The display name of a category, as it appears in the prompt. -/
def Category.name : Category → String
  | .Comedy => "Comedy"
  | .Politics => "Politics"
  | .Business => "Business"
  | .Sports => "Sports"
  | .Technology => "Technology"

/-- Modelled from the spec: the executable mood-to-category lookup table of
MoodPolicy (spec sections 3 and 4.2).  In the source this mapping exists only
as prompt text inside `system_message` and its application is delegated to
the external language model; no lookup function exists under src.  This
closed table follows the spec's words and is checked against the prompt text
below. -/
def moodCategory : Mood → Category
  | .Happy => .Comedy
  | .Sad => .Politics
  | .Stressed => .Business
  | .Excited => .Sports
  | .Neutral => .Technology

/-- Character-wise lower-casing of a string (the category names are plain
ASCII words). -/
def strLower (s : String) : String := String.mk (s.data.map Char.toLower)

/-- Modelled from the spec: MoodPolicy's query construction
`latest category news` with the category name lower-cased (spec section
4.2); the source only exemplifies it inside the prompt
(`latest politics news`). -/
def moodQuery (m : Mood) : String :=
  "latest " ++ strLower (moodCategory m).name ++ " news"

/-- The mapping portion of `system_message`, rendered from the lookup table:
used to check that the modelled table and the source's prompt text agree. -/
def mappingText : String :=
  String.intercalate ", "
    ([Mood.Happy, .Sad, .Stressed, .Excited, .Neutral].map
      (fun m => m.label ++ " → " ++ (moodCategory m).name ++ " news"))

/-- Message roles of the conversation memory. -/
inductive Role where
  | system
  | user
  | assistant
deriving DecidableEq

/-- One role-tagged message of the conversation memory. -/
structure Message where
  role : Role
  content : String
deriving DecidableEq

/-- The conversation memory as seeded by the source (lines 76 to 79): a fresh
ConversationBufferMemory to which exactly one SystemMessage carrying
`system_message` is added before any turn runs. -/
def initialMemory : List Message := [⟨Role.system, system_message⟩]

/-- Modelled from the spec: one completed turn of `agent.run(user_input)`
(source line 102).  The langchain conversational agent is an external
collaborator not under src; per spec sections 4.3 and 8, a completed turn
appends the incoming user message and the composed assistant reply to the
memory, leaving every earlier message unchanged.  Reply composition is
abstracted as a function of the utterance and the current memory. -/
def runTurn (reply : String → List Message → String)
    (memory : List Message) (user_input : String) : List Message :=
  memory ++ [⟨Role.user, user_input⟩, ⟨Role.assistant, reply user_input memory⟩]

/-- A whole session: the seeded memory followed by one completed turn per
user input, in order. -/
def runSession (reply : String → List Message → String)
    (inputs : List String) : List Message :=
  inputs.foldl (runTurn reply) initialMemory

/-- The two module-level credentials (source lines 12 to 13). -/
structure SessionConfig where
  serp_api_key : Option String
  openai_api_key : Option String
deriving DecidableEq

/-- Session start as the source performs it (lines 12 to 13): both
credentials are read with `os.environ.get`, which yields `None` for an
absent variable, and the module then builds the tool, the prompt, the memory
and the agent unconditionally — no code path refuses to start.  The result
is `Option SessionConfig` so that a refusal could be expressed as `none`;
the source never produces it. -/
def startSession (env : String → Option String) : Option SessionConfig :=
  some ⟨env "SERP_API_KEY", env "OPENAI_API_KEY"⟩

/-! Concrete provider responses used by the witnesses. -/

/-- A news_results entry with no snippet field. -/
def exArticle1 : Json :=
  Json.obj [("title", Json.str "Banana boat wins design award"),
            ("link", Json.str "https://news.example/1")]

/-- A news_results entry with all three fields. -/
def exArticle2 : Json :=
  Json.obj [("title", Json.str "Second story"),
            ("snippet", Json.str "A short summary."),
            ("link", Json.str "https://news.example/2")]

/-- The entries of the example news_results array. -/
def exEntries1 : List Json := [exArticle1, exArticle2]

/-- A status-200 body with a non-empty news_results array. -/
def exBody1 : JsonObj := [("news_results", Json.arr exEntries1)]

/-- The entries of the example top_stories array: one without a snippet
field, one with. -/
def exTopEntries : List Json :=
  [Json.obj [("title", Json.str "Top story"),
             ("source", Json.str "BBC"),
             ("date", Json.str "2 hours ago")],
   Json.obj [("title", Json.str "Other story"),
             ("snippet", Json.str "Kept snippet"),
             ("link", Json.str "https://news.example/3")]]

/-- A status-200 body with an empty news_results array and a non-empty
top_stories array. -/
def exTopBody : JsonObj :=
  [("news_results", Json.arr []), ("top_stories", Json.arr exTopEntries)]

/-- A status-200 body with neither result array. -/
def exEmptyBody : JsonObj :=
  [("request_info", Json.obj [("success", Json.bool true)])]

/-! Helper lemmas about the adapter. -/

/-- String concatenation is associative. -/
theorem strAppend_assoc (a b c : String) : a ++ b ++ c = a ++ (b ++ c) := by
  cases a with
  | mk da =>
    cases b with
    | mk db =>
      cases c with
      | mk dc =>
        show String.mk ((da ++ db) ++ dc) = String.mk (da ++ (db ++ dc))
        rw [List.append_assoc]

/-- The source's presence-and-truthiness test fails when the key is absent or
its value is an empty array. -/
theorem keyTruthy_false_of_absent_or_empty (body : JsonObj) (k : String)
    (h : body.lookup k = none ∨ body.lookup k = some (Json.arr [])) :
    keyTruthy body k = false := by
  unfold keyTruthy
  rcases h with h | h
  · rw [h]
  · rw [h]
    rfl

/-- The adapter on a delivered response reduces to the status test. -/
theorem get_news_articles_of_success (key : Option String) (net : Network)
    (q : String) (c : Int) (body : JsonObj)
    (hnet : net (requestParams key q) = TransportResult.success ⟨c, body⟩) :
    get_news_articles key net q =
      (if c = 200 then Except.ok (extractArticles body)
       else Except.ok ("Error: Unable to fetch data from SERP API, status code: " ++
         toString c)) := by
  unfold get_news_articles
  rw [hnet]

/-- Extraction in the news_results branch. -/
theorem extractArticles_news (body : JsonObj) (entries : List Json)
    (hnr : body.lookup "news_results" = some (Json.arr entries))
    (hne : entries ≠ []) :
    extractArticles body =
      String.intercalate "\n\n" ((entries.take 3).map formatNewsResult) := by
  have ht : keyTruthy body "news_results" = true := by
    unfold keyTruthy
    rw [hnr]
    cases entries with
    | nil => exact absurd rfl hne
    | cons a l => rfl
  unfold extractArticles
  rw [ht, hnr]
  rfl

/-- Extraction in the top_stories fallback branch. -/
theorem extractArticles_top (body : JsonObj) (ts : List Json)
    (hnr : body.lookup "news_results" = none ∨
           body.lookup "news_results" = some (Json.arr []))
    (hts : body.lookup "top_stories" = some (Json.arr ts))
    (hne : ts ≠ []) :
    extractArticles body =
      String.intercalate "\n\n" ((ts.take 3).map formatTopStory) := by
  have hnf := keyTruthy_false_of_absent_or_empty body "news_results" hnr
  have ht : keyTruthy body "top_stories" = true := by
    unfold keyTruthy
    rw [hts]
    cases ts with
    | nil => exact absurd rfl hne
    | cons a l => rfl
  unfold extractArticles
  rw [hnf, ht, hts]
  rfl

/-- Extraction in the no-results branch. -/
theorem extractArticles_empty (body : JsonObj)
    (hnr : body.lookup "news_results" = none ∨
           body.lookup "news_results" = some (Json.arr []))
    (hts : body.lookup "top_stories" = none ∨
           body.lookup "top_stories" = some (Json.arr [])) :
    extractArticles body =
      "No news results found. Raw response:\n" ++ json_dumps_indent2 body := by
  have hnf := keyTruthy_false_of_absent_or_empty body "news_results" hnr
  have htf := keyTruthy_false_of_absent_or_empty body "top_stories" hts
  unfold extractArticles
  rw [hnf, htf]
  rfl

/-- Shape of one news_results block: the three labelled lines in order, with
each placeholder exactly when the field is absent. -/
theorem formatNewsResult_shape (a : Json) :
    ∃ t s l,
      formatNewsResult a = "Title: " ++ t ++ "\nSummary: " ++ s ++ "\nLink: " ++ l ∧
      (a.get? "title" = none → t = "No Title") ∧
      (∀ v, a.get? "title" = some v → t = pyStr v) ∧
      (a.get? "snippet" = none → s = "No Summary") ∧
      (∀ v, a.get? "snippet" = some v → s = pyStr v) ∧
      (a.get? "link" = none → l = "No Link") ∧
      (∀ v, a.get? "link" = some v → l = pyStr v) := by
  refine ⟨(match a.get? "title" with | some v => pyStr v | none => "No Title"),
          (match a.get? "snippet" with | some v => pyStr v | none => "No Summary"),
          (match a.get? "link" with | some v => pyStr v | none => "No Link"),
          rfl, ?_, ?_, ?_, ?_, ?_, ?_⟩
  · intro h; rw [h]
  · intro v h; rw [h]
  · intro h; rw [h]
  · intro v h; rw [h]
  · intro h; rw [h]
  · intro v h; rw [h]

/-- Shape of one top_stories block: as a news block, except that an absent
snippet field yields the synthesized source/date summary and a present one is
kept. -/
theorem formatTopStory_shape (a : Json) :
    ∃ t s l,
      formatTopStory a = "Title: " ++ t ++ "\nSummary: " ++ s ++ "\nLink: " ++ l ∧
      (a.get? "snippet" = none → s = topStoryDefaultSummary a) ∧
      (∀ v, a.get? "snippet" = some v → s = pyStr v) ∧
      (a.get? "title" = none → t = "No Title") ∧
      (a.get? "link" = none → l = "No Link") := by
  refine ⟨(match a.get? "title" with | some v => pyStr v | none => "No Title"),
          (match a.get? "snippet" with | some v => pyStr v | none => topStoryDefaultSummary a),
          (match a.get? "link" with | some v => pyStr v | none => "No Link"),
          rfl, ?_, ?_, ?_, ?_⟩
  · intro h; rw [h]
  · intro v h; rw [h]
  · intro h; rw [h]
  · intro h; rw [h]

/-! Theorems settling the claims. -/

/-- Claim C1: on a status-200 response whose parsed body has a non-empty
news_results array, get_news_articles returns exactly min(3, len(array))
formatted blocks joined by a blank line, each block a Title: line, a
Summary: line and a Link: line in that order, with the placeholders
No Title / No Summary / No Link substituted exactly for absent fields. -/
theorem news_results_min3_blocks (key : Option String) (net : Network)
    (q : String) (body : JsonObj) (entries : List Json)
    (hnr : body.lookup "news_results" = some (Json.arr entries))
    (hne : entries ≠ [])
    (hnet : net (requestParams key q) = TransportResult.success ⟨200, body⟩) :
    get_news_articles key net q =
      Except.ok (String.intercalate "\n\n" ((entries.take 3).map formatNewsResult)) ∧
    ((entries.take 3).map formatNewsResult).length = min 3 entries.length ∧
    ∀ a ∈ entries.take 3, ∃ t s l,
      formatNewsResult a = "Title: " ++ t ++ "\nSummary: " ++ s ++ "\nLink: " ++ l ∧
      (a.get? "title" = none → t = "No Title") ∧
      (∀ v, a.get? "title" = some v → t = pyStr v) ∧
      (a.get? "snippet" = none → s = "No Summary") ∧
      (∀ v, a.get? "snippet" = some v → s = pyStr v) ∧
      (a.get? "link" = none → l = "No Link") ∧
      (∀ v, a.get? "link" = some v → l = pyStr v) := by
  refine ⟨?_, ?_, ?_⟩
  · rw [get_news_articles_of_success key net q 200 body hnet, if_pos rfl,
      extractArticles_news body entries hnr hne]
  · rw [List.length_map, List.length_take]
  · intro a _
    exact formatNewsResult_shape a

/-- Witness for C1 at a concrete response: two entries, the first without a
snippet field. -/
theorem news_results_min3_blocks_witness :
    exBody1.lookup "news_results" = some (Json.arr exEntries1) ∧
    exEntries1 ≠ [] ∧
    (get_news_articles none (fun _ => TransportResult.success ⟨200, exBody1⟩)
        "latest comedy news" =
      Except.ok (String.intercalate "\n\n" ((exEntries1.take 3).map formatNewsResult)) ∧
    ((exEntries1.take 3).map formatNewsResult).length = min 3 exEntries1.length ∧
    ∀ a ∈ exEntries1.take 3, ∃ t s l,
      formatNewsResult a = "Title: " ++ t ++ "\nSummary: " ++ s ++ "\nLink: " ++ l ∧
      (a.get? "title" = none → t = "No Title") ∧
      (∀ v, a.get? "title" = some v → t = pyStr v) ∧
      (a.get? "snippet" = none → s = "No Summary") ∧
      (∀ v, a.get? "snippet" = some v → s = pyStr v) ∧
      (a.get? "link" = none → l = "No Link") ∧
      (∀ v, a.get? "link" = some v → l = pyStr v)) :=
  ⟨rfl, by simp [exEntries1],
   news_results_min3_blocks none _ "latest comedy news" exBody1 exEntries1 rfl
     (by simp [exEntries1]) rfl⟩

/-- Claim C3: on a status-200 response whose body has an absent or empty
news_results array but a non-empty top_stories array, the adapter takes up to
the first 3 top_stories entries; an entry with no snippet field gets the
synthesized source/date summary, an entry with a snippet field keeps it. -/
theorem top_stories_fallback (key : Option String) (net : Network)
    (q : String) (body : JsonObj) (ts : List Json)
    (hnr : body.lookup "news_results" = none ∨
           body.lookup "news_results" = some (Json.arr []))
    (hts : body.lookup "top_stories" = some (Json.arr ts))
    (hne : ts ≠ [])
    (hnet : net (requestParams key q) = TransportResult.success ⟨200, body⟩) :
    get_news_articles key net q =
      Except.ok (String.intercalate "\n\n" ((ts.take 3).map formatTopStory)) ∧
    ((ts.take 3).map formatTopStory).length = min 3 ts.length ∧
    ∀ a ∈ ts.take 3, ∃ t s l,
      formatTopStory a = "Title: " ++ t ++ "\nSummary: " ++ s ++ "\nLink: " ++ l ∧
      (a.get? "snippet" = none → s = topStoryDefaultSummary a) ∧
      (∀ v, a.get? "snippet" = some v → s = pyStr v) := by
  refine ⟨?_, ?_, ?_⟩
  · rw [get_news_articles_of_success key net q 200 body hnet, if_pos rfl,
      extractArticles_top body ts hnr hts hne]
  · rw [List.length_map, List.length_take]
  · intro a _
    obtain ⟨t, s, l, heq, habsent, hkept, -, -⟩ := formatTopStory_shape a
    exact ⟨t, s, l, heq, habsent, hkept⟩

/-- Witness for C3 at a concrete response: empty news_results, two top
stories, the first without a snippet field. -/
theorem top_stories_fallback_witness :
    (exTopBody.lookup "news_results" = none ∨
     exTopBody.lookup "news_results" = some (Json.arr [])) ∧
    exTopBody.lookup "top_stories" = some (Json.arr exTopEntries) ∧
    exTopEntries ≠ [] ∧
    (get_news_articles none (fun _ => TransportResult.success ⟨200, exTopBody⟩)
        "latest politics news" =
      Except.ok (String.intercalate "\n\n" ((exTopEntries.take 3).map formatTopStory)) ∧
    ((exTopEntries.take 3).map formatTopStory).length = min 3 exTopEntries.length ∧
    ∀ a ∈ exTopEntries.take 3, ∃ t s l,
      formatTopStory a = "Title: " ++ t ++ "\nSummary: " ++ s ++ "\nLink: " ++ l ∧
      (a.get? "snippet" = none → s = topStoryDefaultSummary a) ∧
      (∀ v, a.get? "snippet" = some v → s = pyStr v)) :=
  ⟨Or.inr rfl, rfl, by simp [exTopEntries],
   top_stories_fallback none _ "latest politics news" exTopBody exTopEntries
     (Or.inr rfl) rfl (by simp [exTopEntries]) rfl⟩

/-- Claim C4: on a response with any non-200 status code c, the adapter's
value is exactly the string
`Error: Unable to fetch data from SERP API, status code: c`, returned as a
normal result (Except.ok), not raised. -/
theorem non_200_status_error_text (key : Option String) (net : Network)
    (q : String) (c : Int) (body : JsonObj)
    (hnet : net (requestParams key q) = TransportResult.success ⟨c, body⟩)
    (hc : c ≠ 200) :
    get_news_articles key net q =
      Except.ok ("Error: Unable to fetch data from SERP API, status code: " ++
        toString c) := by
  rw [get_news_articles_of_success key net q c body hnet, if_neg hc]

/-- Witness for C4 at status 404. -/
theorem non_200_status_error_text_witness :
    get_news_articles none (fun _ => TransportResult.success ⟨404, exEmptyBody⟩)
        "latest comedy news" =
      Except.ok "Error: Unable to fetch data from SERP API, status code: 404" :=
  non_200_status_error_text none _ "latest comedy news" 404 exEmptyBody rfl
    (by decide)

/-- Claim C5: on a status-200 response whose body has neither a non-empty
news_results array nor a non-empty top_stories array, the output begins with
the literal marker `No news results found.` and carries the raw parsed
response serialized as indented text after it. -/
theorem no_results_diagnostic (key : Option String) (net : Network)
    (q : String) (body : JsonObj)
    (hnr : body.lookup "news_results" = none ∨
           body.lookup "news_results" = some (Json.arr []))
    (hts : body.lookup "top_stories" = none ∨
           body.lookup "top_stories" = some (Json.arr []))
    (hnet : net (requestParams key q) = TransportResult.success ⟨200, body⟩) :
    get_news_articles key net q =
      Except.ok ("No news results found. Raw response:\n" ++ json_dumps_indent2 body) ∧
    ∃ rest, "No news results found. Raw response:\n" ++ json_dumps_indent2 body =
      "No news results found." ++ rest := by
  constructor
  · rw [get_news_articles_of_success key net q 200 body hnet, if_pos rfl,
      extractArticles_empty body hnr hts]
  · refine ⟨" Raw response:\n" ++ json_dumps_indent2 body, ?_⟩
    rw [← strAppend_assoc]
    rfl

/-- Witness for C5 at a body containing only request metadata. -/
theorem no_results_diagnostic_witness :
    (exEmptyBody.lookup "news_results" = none ∨
     exEmptyBody.lookup "news_results" = some (Json.arr [])) ∧
    (exEmptyBody.lookup "top_stories" = none ∨
     exEmptyBody.lookup "top_stories" = some (Json.arr [])) ∧
    (get_news_articles none (fun _ => TransportResult.success ⟨200, exEmptyBody⟩)
        "latest business news" =
      Except.ok ("No news results found. Raw response:\n" ++
        json_dumps_indent2 exEmptyBody) ∧
    ∃ rest, "No news results found. Raw response:\n" ++ json_dumps_indent2 exEmptyBody =
      "No news results found." ++ rest) :=
  ⟨Or.inl rfl, Or.inl rfl,
   no_results_diagnostic none _ "latest business news" exEmptyBody
     (Or.inl rfl) (Or.inl rfl) rfl⟩

/-- Claim C9: in the top_stories branch, an entry lacking a snippet field
gets the summary line exactly `Source: x, Date: y`, where x is the source
field (Unknown when absent) and y is the date field (Unknown when absent). -/
theorem top_story_synthesized_summary (a : Json)
    (h : a.get? "snippet" = none) :
    ∃ t l x y,
      formatTopStory a =
        "Title: " ++ t ++ "\nSummary: " ++ ("Source: " ++ x ++ ", Date: " ++ y) ++
        "\nLink: " ++ l ∧
      (a.get? "source" = none → x = "Unknown") ∧
      (∀ v, a.get? "source" = some v → x = pyStr v) ∧
      (a.get? "date" = none → y = "Unknown") ∧
      (∀ v, a.get? "date" = some v → y = pyStr v) := by
  refine ⟨(match a.get? "title" with | some v => pyStr v | none => "No Title"),
          (match a.get? "link" with | some v => pyStr v | none => "No Link"),
          (match a.get? "source" with | some v => pyStr v | none => "Unknown"),
          (match a.get? "date" with | some v => pyStr v | none => "Unknown"),
          ?_, ?_, ?_, ?_, ?_⟩
  · unfold formatTopStory topStoryDefaultSummary
    rw [h]
  · intro hs; rw [hs]
  · intro v hv; rw [hv]
  · intro hd; rw [hd]
  · intro v hv; rw [hv]

/-- Witness for C9 at a concrete entry with a source and a date but no
snippet field. -/
theorem top_story_synthesized_summary_witness :
    (Json.obj [("title", Json.str "Top story"), ("source", Json.str "BBC"),
      ("date", Json.str "2 hours ago")]).get? "snippet" = none ∧
    ∃ t l x y,
      formatTopStory (Json.obj [("title", Json.str "Top story"),
          ("source", Json.str "BBC"), ("date", Json.str "2 hours ago")]) =
        "Title: " ++ t ++ "\nSummary: " ++ ("Source: " ++ x ++ ", Date: " ++ y) ++
        "\nLink: " ++ l ∧
      ((Json.obj [("title", Json.str "Top story"), ("source", Json.str "BBC"),
        ("date", Json.str "2 hours ago")]).get? "source" = none → x = "Unknown") ∧
      (∀ v, (Json.obj [("title", Json.str "Top story"), ("source", Json.str "BBC"),
        ("date", Json.str "2 hours ago")]).get? "source" = some v → x = pyStr v) ∧
      ((Json.obj [("title", Json.str "Top story"), ("source", Json.str "BBC"),
        ("date", Json.str "2 hours ago")]).get? "date" = none → y = "Unknown") ∧
      (∀ v, (Json.obj [("title", Json.str "Top story"), ("source", Json.str "BBC"),
        ("date", Json.str "2 hours ago")]).get? "date" = some v → y = pyStr v) :=
  ⟨rfl, top_story_synthesized_summary _ rfl⟩

/-- Claim C10: the extraction is deterministic in the provider response: two
calls whose single requests are answered with the same status code and the
same parsed body return equal texts, whatever the query strings or API key
values used for the requests. -/
theorem extraction_deterministic (k₁ k₂ : Option String) (q₁ q₂ : String)
    (net₁ net₂ : Network) (c : Int) (body : JsonObj)
    (h₁ : net₁ (requestParams k₁ q₁) = TransportResult.success ⟨c, body⟩)
    (h₂ : net₂ (requestParams k₂ q₂) = TransportResult.success ⟨c, body⟩) :
    get_news_articles k₁ net₁ q₁ = get_news_articles k₂ net₂ q₂ := by
  rw [get_news_articles_of_success k₁ net₁ q₁ c body h₁,
    get_news_articles_of_success k₂ net₂ q₂ c body h₂]

/-- Witness for C10: different keys and queries, same response. -/
theorem extraction_deterministic_witness :
    get_news_articles (some "secret-key")
        (fun _ => TransportResult.success ⟨200, exBody1⟩) "latest comedy news" =
      get_news_articles none
        (fun _ => TransportResult.success ⟨200, exBody1⟩) "latest business news" :=
  extraction_deterministic (some "secret-key") none "latest comedy news"
    "latest business news" _ _ 200 exBody1 rfl rfl

/-- Claim C6 counterexample: a network failure of the single request is not
returned as inline error text — `requests.get` is wrapped in no try/except,
so the exception escalates out of get_news_articles (modelled as
Except.error); at this concrete input the result is not `Except.ok` of any
string. -/
theorem network_failure_escalates_cex :
    get_news_articles none (fun _ => TransportResult.failure "ConnectionError")
        "latest comedy news" = Except.error "ConnectionError" ∧
    ¬ ∃ s, get_news_articles none
        (fun _ => TransportResult.failure "ConnectionError")
        "latest comedy news" = Except.ok s :=
  ⟨rfl, fun ⟨_, hs⟩ => nomatch hs⟩

/-- Claim C6 as amended: a non-success HTTP status is reported as inline
error text returned normally, but a network failure of the single request
escalates out of the adapter as an exception — the source has no exception
handling around `requests.get`. -/
theorem transport_fault_handling (key : Option String) (net : Network)
    (q : String) :
    (∀ c body, net (requestParams key q) = TransportResult.success ⟨c, body⟩ →
      c ≠ 200 →
      get_news_articles key net q =
        Except.ok ("Error: Unable to fetch data from SERP API, status code: " ++
          toString c)) ∧
    (∀ exc, net (requestParams key q) = TransportResult.failure exc →
      get_news_articles key net q = Except.error exc) := by
  constructor
  · intro c body hnet hc
    rw [get_news_articles_of_success key net q c body hnet, if_neg hc]
  · intro exc hnet
    unfold get_news_articles
    rw [hnet]

/-- Witness for the amended C6: one net answering 500, one raising. -/
theorem transport_fault_handling_witness :
    get_news_articles none (fun _ => TransportResult.success ⟨500, exEmptyBody⟩)
        "latest sports news" =
      Except.ok "Error: Unable to fetch data from SERP API, status code: 500" ∧
    get_news_articles none (fun _ => TransportResult.failure "ReadTimeout")
        "latest sports news" = Except.error "ReadTimeout" :=
  ⟨(transport_fault_handling none _ "latest sports news").1 500 exEmptyBody rfl
      (by decide),
   (transport_fault_handling none _ "latest sports news").2 "ReadTimeout" rfl⟩

set_option maxRecDepth 40000 in
/-- Claim C2: the mood policy is the fixed closed lookup table Happy to
Comedy, Sad to Politics, Stressed to Business, Excited to Sports, Neutral to
Technology, and builds the query `latest category news` with the category
name lower-cased; the table agrees with the mapping text embedded in the
source's system_message prompt. -/
theorem mood_policy_closed_table :
    moodCategory Mood.Happy = Category.Comedy ∧
    moodCategory Mood.Sad = Category.Politics ∧
    moodCategory Mood.Stressed = Category.Business ∧
    moodCategory Mood.Excited = Category.Sports ∧
    moodCategory Mood.Neutral = Category.Technology ∧
    moodQuery Mood.Happy = "latest comedy news" ∧
    moodQuery Mood.Sad = "latest politics news" ∧
    moodQuery Mood.Stressed = "latest business news" ∧
    moodQuery Mood.Excited = "latest sports news" ∧
    moodQuery Mood.Neutral = "latest technology news" ∧
    system_message =
      "You are a friendly, mood-sensitive news assistant. Always start by asking: \x27How has your day been so far?\x27 Then, based on the user\x27s answer, analyze their mood and map it to a news category as follows: " ++
      mappingText ++
      ". Once the mood and corresponding category are determined, construct a detailed query (for example, \x27latest politics news\x27) and use the SERPNewsAPI tool to fetch three recent news articles. Respond in a friendly, conversational tone and conclude after delivering the news." :=
  ⟨rfl, rfl, rfl, rfl, rfl, by decide, by decide, by decide, by decide,
   by decide, by decide⟩

/-- Length of a folded run of turns: each turn adds two messages. -/
theorem runTurn_foldl_length (reply : String → List Message → String) :
    ∀ (inputs : List String) (s : List Message),
      (inputs.foldl (runTurn reply) s).length = s.length + 2 * inputs.length := by
  intro inputs
  induction inputs with
  | nil => intro s; simp
  | cons u rest ih =>
    intro s
    rw [List.foldl_cons, ih]
    simp [runTurn]
    omega

/-- Claim C7: the conversation log is append-only: it is seeded with exactly
the one system message, a completed turn appends exactly one user and one
assistant message after the existing log (leaving every earlier message in
place and unchanged), and after N turns the log holds exactly 1 + 2N
messages. -/
theorem conversation_append_only (reply : String → List Message → String)
    (inputs : List String) :
    (runSession reply inputs).length = 1 + 2 * inputs.length ∧
    runSession reply [] = [⟨Role.system, system_message⟩] ∧
    ∀ u, runSession reply (inputs ++ [u]) =
      runSession reply inputs ++
        [⟨Role.user, u⟩, ⟨Role.assistant, reply u (runSession reply inputs)⟩] := by
  refine ⟨?_, rfl, ?_⟩
  · unfold runSession
    rw [runTurn_foldl_length]
    simp [initialMemory]
  · intro u
    unfold runSession
    rw [List.foldl_append]
    rfl

/-- Claim C8 counterexample: with both credentials absent from the
environment, the session still begins — lines 12 and 13 read the variables
with environ.get (yielding None) and nothing checks them — and the adapter
then carries the absent key into the request's api_key parameter instead of
refusing, i.e. degraded operation. -/
theorem missing_credentials_no_refusal_cex :
    startSession (fun _ => none) = some ⟨none, none⟩ ∧
    startSession (fun _ => none) ≠ none ∧
    requestParams none "latest technology news" =
      [("api_key", none), ("q", some "latest technology news"),
       ("gl", some "us"), ("hl", some "en"),
       ("google_domain", some "google.com")] :=
  ⟨rfl, by intro h; simp [startSession] at h, rfl⟩

/-- Claim C8 as amended: the source performs no credential presence check of
its own at session start: whatever the environment, the session begins, each
credential carried as read (None when absent); any refusal for a missing
reasoning key would come from the external client library, not this code. -/
theorem session_start_unchecked (env : String → Option String) :
    startSession env ≠ none ∧
    startSession env = some ⟨env "SERP_API_KEY", env "OPENAI_API_KEY"⟩ :=
  ⟨by intro h; simp [startSession] at h, rfl⟩

end NewsByMood
